import Mathlib

/-!
Verification of the recommendation pipeline of the Satisfy marketplace
backend (src/app.py, endpoint ai_recommend, lines 682-897), against its
natural-language specification.

The endpoint is embedded shallowly: the catalog snapshot is a list of
product records, the request body is a record of the fields read by the
handler, and the single outbound call to the Ollama generation service is
an explicit argument classified as in spec section 4.3 (success with a
parse outcome, non-success status, or connection failure).  JSON values
appearing inside the model reply are modelled by an inductive JVal;
non-integer JSON numbers are not modelled (no claim depends on them).
Python dynamic-typing behaviour is kept faithfully: comparing a
non-numeric confidence with an integer raises TypeError in the source
(caught by neither handler), which the embedding represents as a crash
outcome.
-/

namespace Satisfy

/-- Product rows as seen by ai_recommend after model_to_dict: the fields the
pipeline reads.  notes is a nullable Text column; a None value is rendered
by the f-string as the four letters None, which pyStr reproduces. -/
structure Product where
  id : Int
  name : String
  category : String
  notes : Option String
deriving DecidableEq, Repr

/-- Request fields read by ai_recommend from the JSON body, with the same
defaults as data.get.  category is None when absent; the handler guards it
with a truthiness test, so the empty string also disables the filter. -/
structure RecRequest where
  query : String
  user_id : String
  disliked_ids : List Int
  allergies : List String
  avoid_list : List String
  preferred_vendors : List String
  category : Option String
deriving Repr

/-- Python str() of an optional string: None renders as the text None. -/
def pyStr : Option String → String
  | some s => s
  | none => "None"

/-- Python str.lower() restricted to the ASCII mapping, as a structural
map over the character sequence. -/
def pyLower (s : String) : String :=
  ⟨s.data.map Char.toLower⟩

/-- Python substring test needle in hay, on the character sequences. -/
def pyIn (needle hay : String) : Bool :=
  decide (List.IsInfix needle.toList hay.toList)

/-- Lowercased name-and-notes blob used by the allergen filter:
f-string of name, a space, and notes, lowercased. -/
def allergyBlob (p : Product) : String :=
  pyLower (p.name ++ " " ++ pyStr p.notes)

/-- Lowercased name, notes and category blob used by the avoid filter. -/
def avoidBlob (p : Product) : String :=
  pyLower (p.name ++ " " ++ pyStr p.notes ++ " " ++ p.category)

/-- Stage 1: keep only products of the requested category (exact match);
skipped when the category field is absent or falsy (empty string). -/
def categoryFilter (cat : Option String) (ps : List Product) : List Product :=
  match cat with
  | none => ps
  | some c => if c = "" then ps else ps.filter (fun p => p.category = c)

/-- Stage 2: drop products whose id is in the disliked list. -/
def dislikeFilter (disliked : List Int) (ps : List Product) : List Product :=
  ps.filter (fun p => !(disliked.contains p.id))

/-- Stage 3: drop products whose allergyBlob contains any lowercased
allergy term; skipped when the allergy list is falsy (empty). -/
def allergyFilter (allergies : List String) (ps : List Product) : List Product :=
  if allergies.isEmpty then ps
  else ps.filter (fun p => !(allergies.any (fun a => pyIn (pyLower a) (allergyBlob p))))

/-- Stage 4: drop products whose avoidBlob contains any lowercased
avoid term; skipped when the avoid list is falsy (empty). -/
def avoidFilter (avoid : List String) (ps : List Product) : List Product :=
  if avoid.isEmpty then ps
  else ps.filter (fun p => !(avoid.any (fun a => pyIn (pyLower a) (avoidBlob p))))

/-- The post-filter candidate set: the four stages in source order
(category, dislike, allergen, avoid). -/
def filteredProducts (req : RecRequest) (catalog : List Product) : List Product :=
  avoidFilter req.avoid_list
    (allergyFilter req.allergies
      (dislikeFilter req.disliked_ids
        (categoryFilter req.category catalog)))

/-- JSON values occurring inside the parsed model reply.  jarr and jobj
stand for any array or object value; non-integer JSON numbers are not
modelled. -/
inductive JVal where
  | jnull
  | jint (n : Int)
  | jbool (b : Bool)
  | jstr (s : String)
  | jarr
  | jobj
deriving DecidableEq, Repr

/-- One element of the recommendations array of the parsed reply.  A dict
entry records, for each of the two keys the code reads, whether the key is
present and its value (absence and null are distinct: rec.get with a
default substitutes only for absence). -/
inductive RecEntry where
  | nonDict
  | dict (idv : Option JVal) (confv : Option JVal)
deriving DecidableEq, Repr

/-- Python int() applied to a string: optional surrounding whitespace, an
optional sign, then decimal digits (digit-group underscores are not
modelled). -/
def pyInt (s : String) : Option Int :=
  let cs := ((s.data.dropWhile Char.isWhitespace).reverse.dropWhile
    Char.isWhitespace).reverse
  let signed : Int × List Char :=
    match cs with
    | '-' :: rest => (-1, rest)
    | '+' :: rest => (1, rest)
    | _ => (1, cs)
  match signed with
  | (sign, digits) =>
    if digits.isEmpty then none
    else if digits.all Char.isDigit then
      some (sign * (Int.ofNat (digits.foldl (fun a c => a * 10 + (c.toNat - 48)) 0)))
    else none

/-- A surviving scored candidate: the post-coercion id value and the
validated integer confidence. -/
structure Scored where
  idv : JVal
  conf : Int
deriving DecidableEq, Repr

/-- Python comparison confidence greater-or-equal 5 and less-or-equal 7.
Integers and booleans compare against integers; any other operand type
raises TypeError, which neither except clause of the source catches. -/
def confCheck : JVal → Except String (Option Int)
  | .jint n => .ok (if 5 ≤ n ∧ n ≤ 7 then some n else none)
  | .jbool _ => .ok none
  | .jnull => .error "TypeError: NoneType and int are not orderable"
  | .jstr _ => .error "TypeError: str and int are not orderable"
  | .jarr => .error "TypeError: list and int are not orderable"
  | .jobj => .error "TypeError: dict and int are not orderable"

/-- Coercion of the id field: a string id is passed through int(), with a
ValueError skipping the entry; every other value is kept as-is. -/
def coerceId : JVal → Option JVal
  | .jstr s => (pyInt s).map JVal.jint
  | v => some v

/-- One iteration of the validation loop over recommendations_data:
skip non-dict entries, coerce string ids (skipping on failure), then test
the confidence (defaulting to integer 0 when the key is absent), keeping
entries whose confidence lies in 5..7.  An error is an uncaught Python
TypeError. -/
def processEntry : RecEntry → Except String (Option Scored)
  | .nonDict => .ok none
  | .dict idv confv =>
    match coerceId (idv.getD .jnull) with
    | none => .ok none
    | some rid =>
      match confCheck (confv.getD (.jint 0)) with
      | .error m => .error m
      | .ok none => .ok none
      | .ok (some c) => .ok (some ⟨rid, c⟩)

/-- The whole validation loop, building high_confidence in entry order;
the first TypeError aborts the request. -/
def highConfidence : List RecEntry → Except String (List Scored)
  | [] => .ok []
  | e :: es =>
    match processEntry e with
    | .error m => .error m
    | .ok o =>
      match highConfidence es with
      | .error m => .error m
      | .ok rest => .ok (match o with | some s => s :: rest | none => rest)

/-- Python equality of a candidate id value against a product id integer:
integers compare by value, booleans compare as 0 or 1, all other types
compare unequal to an integer. -/
def pyEqId (v : JVal) (pid : Int) : Bool :=
  match v with
  | .jint n => n = pid
  | .jbool b => (if b then (1 : Int) else 0) = pid
  | _ => false

/-- A response entry: a product record, carrying a confidence value on the
success path and none on the fallback path (where the raw dict has no
confidence key). -/
structure RecProduct where
  product : Product
  confidence : Option Int
deriving DecidableEq, Repr

/-- The identifier join: for each surviving candidate in order, the first
filtered product with a matching id, annotated with the candidate's
confidence; candidates without a match are silently dropped. -/
def joinProducts (fps : List Product) (hc : List Scored) : List RecProduct :=
  hc.filterMap (fun s =>
    (fps.find? (fun p => pyEqId s.idv p.id)).map (fun p => ⟨p, some s.conf⟩))

/-- The parsed model reply, after result.get on the two keys the code
reads: the recommendations array (absent or wrong-shape treated as the
concrete list supplied here) and the reasoning string (none when the key
is absent, triggering the fixed default). -/
structure ParsedReply where
  recommendations : List RecEntry
  reasoning : Option String
deriving Repr

/-- Classification of the single generation-service call, as in spec
section 4.3: success with a status of 200 carrying the parse outcome of
the text payload (none when json.loads raises JSONDecodeError), a
non-success status, or a connection/timeout failure carrying the cause
string of the RequestException. -/
inductive GenReply where
  | success (parsed : Option ParsedReply)
  | httpStatus (code : Nat)
  | unreachable (cause : String)
deriving Repr

/-- The fixed service endpoint call configuration of the source: model
tag, stream flag, request timeout in seconds, temperature in tenths, and
the generated-length cap. -/
structure CallConfig where
  model : String
  stream : Bool
  timeoutSeconds : Nat
  temperatureTenths : Nat
  numPredict : Nat
deriving Repr

/-- The configuration the source passes to requests.post. -/
def ollamaCallConfig : CallConfig :=
  { model := "deepseek-r1:8b"
    stream := false
    timeoutSeconds := 90
    temperatureTenths := 7
    numPredict := 500 }

/-- A successful JSON response body of the endpoint: the keys jsonify is
given on each 200 path.  ai_model is absent (none) exactly on the
parse-failure fallback path; note is present exactly there. -/
structure OkPayload where
  user_id : String
  query : String
  recommendations : List RecProduct
  reasoning : String
  ai_model : Option String
  note : Option String
deriving DecidableEq, Repr

/-- The endpoint outcome: a 200 payload, an error response with its HTTP
code, the echoed upstream status when present and the exception text when
present, or an uncaught Python exception propagating out of the handler. -/
inductive RecOutcome where
  | ok (payload : OkPayload)
  | err (code : Nat) (message : String) (status : Option Nat) (details : Option String)
  | crash (msg : String)
deriving DecidableEq, Repr

/-- Recommendations list of an outcome (empty for error and crash). -/
def RecOutcome.recs : RecOutcome → List RecProduct
  | .ok p => p.recommendations
  | _ => []

/-- Whether the outcome is an error response. -/
def RecOutcome.isErr : RecOutcome → Bool
  | .err _ _ _ _ => true
  | _ => false

/-- Whether the outcome is an uncaught exception. -/
def RecOutcome.isCrash : RecOutcome → Bool
  | .crash _ => true
  | _ => false

/-- The model tag string attached on non-fallback 200 paths. -/
def aiModelTag : String := "deepseek-r1:8b (Local)"

/-- Rationale returned when the post-filter candidate set is empty. -/
def filterEmptyReasoning : String :=
  "No drinks match your preferences and restrictions. Please adjust your filters."

/-- Rationale returned when no parsed candidate survives validation. -/
def noStrongReasoning : String :=
  "No strong matches found (confidence 5+/7). Try adjusting your search or preferences."

/-- Rationale of the parse-failure fallback. -/
def fallbackReasoning : String := "Using fallback recommendations"

/-- Note attached to the parse-failure fallback. -/
def fallbackNote : String := "AI response parsing failed"

/-- Default rationale when the parsed reply lacks a reasoning key. -/
def defaultReasoning : String :=
  "AI-powered recommendations based on your preferences."

/-- The ai_recommend handler, given the catalog snapshot, the request,
and the reply of the single generation-service call.  The second
component counts the calls issued to the service (0 on the short-circuit
path, 1 otherwise); the handler structurally cannot retry. -/
def ai_recommend (catalog : List Product) (req : RecRequest) (oracle : GenReply) :
    RecOutcome × Nat :=
  let fps := filteredProducts req catalog
  if fps.isEmpty then
    (.ok { user_id := req.user_id, query := req.query, recommendations := []
           reasoning := filterEmptyReasoning, ai_model := some aiModelTag
           note := none }, 0)
  else
    match oracle with
    | .unreachable cause =>
      (.err 500 "Cannot connect to Ollama. Make sure Ollama is running." none (some cause), 1)
    | .httpStatus code =>
      (.err 500 "Ollama API error" (some code) none, 1)
    | .success none =>
      (.ok { user_id := req.user_id, query := req.query
             recommendations := (fps.take 3).map (fun p => ⟨p, none⟩)
             reasoning := fallbackReasoning, ai_model := none
             note := some fallbackNote }, 1)
    | .success (some parsed) =>
      match highConfidence parsed.recommendations with
      | .error m => (.crash m, 1)
      | .ok hc =>
        if hc.isEmpty then
          (.ok { user_id := req.user_id, query := req.query, recommendations := []
                 reasoning := noStrongReasoning, ai_model := some aiModelTag
                 note := none }, 1)
        else
          (.ok { user_id := req.user_id, query := req.query
                 recommendations := joinProducts fps hc
                 reasoning := parsed.reasoning.getD defaultReasoning
                 ai_model := some aiModelTag, note := none }, 1)

/-- Confidence value a dict entry would present to the threshold test:
the value of the confidence key, defaulting to integer 0 when absent; none
for non-dict entries and non-integer confidence values. -/
def entryConf : RecEntry → Option Int
  | .nonDict => none
  | .dict _ confv =>
    match confv.getD (.jint 0) with
    | .jint n => some n
    | _ => none

/-- Entries on which the validation loop cannot raise TypeError: non-dict
entries, entries skipped at id coercion before the confidence is read, and
entries whose effective confidence is an integer or a boolean. -/
def confTypeSafe : RecEntry → Bool
  | .nonDict => true
  | .dict idv confv =>
    (match idv.getD .jnull with
     | .jstr s => (pyInt s).isNone
     | _ => false) ||
    (match confv.getD (.jint 0) with
     | .jint _ => true
     | .jbool _ => true
     | _ => false)

/-- Entries that reach the confidence threshold test (a dict whose id is
not an uncoercible string) and fail it with an out-of-range integer. -/
def discardedByThreshold : RecEntry → Bool
  | .nonDict => false
  | .dict idv confv =>
    (match idv.getD .jnull with
     | .jstr s => (pyInt s).isSome
     | _ => true) &&
    (match confv.getD (.jint 0) with
     | .jint n => decide (n < 5 ∨ 7 < n)
     | _ => false)

/-! Concrete fixtures used by counterexamples and witnesses. -/

/-- Sample product: an espresso with empty notes column. -/
def p1 : Product := ⟨1, "Espresso", "Espresso", none⟩

/-- Sample product: a latte whose notes mention milk. -/
def p2 : Product := ⟨2, "Latte", "Hot Coffees", some "milk, espresso"⟩

/-- Sample product: a tea. -/
def p3 : Product := ⟨3, "Green Tea", "Teas", some "grassy"⟩

/-- A three-product catalog snapshot. -/
def demoCatalog : List Product := [p1, p2, p3]

/-- A request with no restrictions. -/
def demoReq : RecRequest := ⟨"q", "guest", [], [], [], [], none⟩

/-- A request declaring a milk allergy. -/
def milkReq : RecRequest := ⟨"q", "guest", [], ["Milk"], [], [], none⟩

/-- A request disliking product 2. -/
def dislikeReq : RecRequest := ⟨"q", "guest", [2], [], [], [], none⟩

/-- A request disliking the entire demo catalog. -/
def emptyReq : RecRequest := ⟨"q", "guest", [1, 2, 3], [], [], [], none⟩

/-- A parsed reply listing confidences in ascending (non-compliant)
order. -/
def unsortedReply : ParsedReply :=
  ⟨[.dict (some (.jint 1)) (some (.jint 5)), .dict (some (.jint 2)) (some (.jint 7))], some "rs"⟩

/-- A parsed reply listing confidences in descending (compliant) order. -/
def sortedReply : ParsedReply :=
  ⟨[.dict (some (.jint 2)) (some (.jint 7)), .dict (some (.jint 1)) (some (.jint 5))], some "rs"⟩

/-- A parsed reply whose single entry has a string-typed confidence. -/
def badConfReply : ParsedReply :=
  ⟨[.dict (some (.jint 1)) (some (.jstr "high"))], some "r"⟩

/-- A parsed reply with a mix of invalid entry shapes, all type-safe. -/
def mixedReply : ParsedReply :=
  ⟨[.nonDict, .dict (some (.jstr "abc")) (some (.jstr "seven")),
    .dict none (some (.jint 9)), .dict (some (.jint 2)) (some (.jint 6))], some "mx"⟩

/-- A parsed reply whose single entry is a weak match (confidence 3). -/
def weakReply : ParsedReply :=
  ⟨[.dict (some (.jint 1)) (some (.jint 3))], some "weak"⟩

/-- A parsed reply whose single strong entry names an id outside the
menu. -/
def hallucReply : ParsedReply :=
  ⟨[.dict (some (.jint 99)) (some (.jint 6))], some "model says"⟩

/-! Helper lemmas about the filter stages. -/

theorem mem_of_mem_categoryFilter {p : Product} {cat : Option String} {ps : List Product}
    (h : p ∈ categoryFilter cat ps) : p ∈ ps := by
  unfold categoryFilter at h
  cases cat with
  | none => exact h
  | some c =>
    by_cases hc : c = ""
    · simpa [hc] using h
    · simp only [hc, if_false] at h
      exact List.mem_of_mem_filter h

theorem mem_of_mem_dislikeFilter {p : Product} {d : List Int} {ps : List Product}
    (h : p ∈ dislikeFilter d ps) : p ∈ ps :=
  List.mem_of_mem_filter h

theorem mem_of_mem_allergyFilter {p : Product} {al : List String} {ps : List Product}
    (h : p ∈ allergyFilter al ps) : p ∈ ps := by
  unfold allergyFilter at h
  by_cases he : al.isEmpty
  · simpa [he] using h
  · simp only [he, if_false] at h
    exact List.mem_of_mem_filter h

theorem mem_of_mem_avoidFilter {p : Product} {av : List String} {ps : List Product}
    (h : p ∈ avoidFilter av ps) : p ∈ ps := by
  unfold avoidFilter at h
  by_cases he : av.isEmpty
  · simpa [he] using h
  · simp only [he, if_false] at h
    exact List.mem_of_mem_filter h

theorem dislikeFilter_prop {p : Product} {d : List Int} {ps : List Product}
    (h : p ∈ dislikeFilter d ps) : d.contains p.id = false := by
  have := List.of_mem_filter h
  simpa using this

theorem allergyFilter_prop {p : Product} {al : List String} {ps : List Product}
    (hne : al ≠ []) (h : p ∈ allergyFilter al ps) :
    ∀ a ∈ al, pyIn (pyLower a) (allergyBlob p) = false := by
  unfold allergyFilter at h
  have he : al.isEmpty = false := by
    cases al with
    | nil => exact absurd rfl hne
    | cons x xs => rfl
  simp only [he, if_false] at h
  have hp := List.of_mem_filter h
  simp only [Bool.not_eq_true', List.any_eq_false] at hp
  intro a ha
  exact Bool.eq_false_iff.mpr (hp a ha)

theorem mem_filteredProducts_dislike {p : Product} {req : RecRequest} {c : List Product}
    (h : p ∈ filteredProducts req c) : req.disliked_ids.contains p.id = false := by
  unfold filteredProducts at h
  exact dislikeFilter_prop (mem_of_mem_allergyFilter (mem_of_mem_avoidFilter h))

theorem mem_filteredProducts_allergy {p : Product} {req : RecRequest} {c : List Product}
    (hne : req.allergies ≠ []) (h : p ∈ filteredProducts req c) :
    ∀ a ∈ req.allergies, pyIn (pyLower a) (allergyBlob p) = false := by
  unfold filteredProducts at h
  exact allergyFilter_prop hne (mem_of_mem_avoidFilter h)

/-! Helper lemmas about the validation loop and the identifier join. -/

theorem confCheck_some {v : JVal} {c : Int} (h : confCheck v = .ok (some c)) :
    v = .jint c ∧ 5 ≤ c ∧ c ≤ 7 := by
  cases v <;> simp [confCheck] at h
  case jint n =>
    obtain ⟨hb, rfl⟩ := h
    exact ⟨rfl, hb⟩

theorem processEntry_some {e : RecEntry} {s : Scored}
    (h : processEntry e = .ok (some s)) :
    (5 ≤ s.conf ∧ s.conf ≤ 7) ∧ entryConf e = some s.conf := by
  cases e with
  | nonDict => simp [processEntry] at h
  | dict idv confv =>
    simp only [processEntry] at h
    split at h
    · cases h
    · split at h
      · cases h
      · cases h
      · next c hcc =>
        cases h
        rcases confCheck_some hcc with ⟨hv, hb⟩
        refine ⟨hb, ?_⟩
        simp [entryConf, hv]

theorem highConfidence_ok_conf {es : List RecEntry} {hc : List Scored}
    (h : highConfidence es = .ok hc) :
    ∀ s ∈ hc, 5 ≤ s.conf ∧ s.conf ≤ 7 := by
  induction es generalizing hc with
  | nil =>
    simp only [highConfidence, Except.ok.injEq] at h
    subst h
    intro s hs
    exact absurd hs (List.not_mem_nil s)
  | cons e es ih =>
    simp only [highConfidence] at h
    cases hpe : processEntry e with
    | error m => rw [hpe] at h; exact absurd h (by simp)
    | ok o =>
      rw [hpe] at h
      cases hrec : highConfidence es with
      | error m => rw [hrec] at h; exact absurd h (by simp)
      | ok rest =>
        rw [hrec] at h
        cases o with
        | none =>
          simp only [Except.ok.injEq] at h
          subst h
          exact ih hrec
        | some s =>
          simp only [Except.ok.injEq] at h
          subst h
          intro t ht
          rcases List.mem_cons.mp ht with h1 | h2
          · subst h1
            exact (processEntry_some hpe).1
          · exact ih hrec t h2

theorem highConfidence_confs_sublist {es : List RecEntry} {hc : List Scored}
    (h : highConfidence es = .ok hc) :
    List.Sublist (hc.map Scored.conf) (es.filterMap entryConf) := by
  induction es generalizing hc with
  | nil =>
    simp only [highConfidence, Except.ok.injEq] at h
    subst h
    simp
  | cons e es ih =>
    simp only [highConfidence] at h
    cases hpe : processEntry e with
    | error m => rw [hpe] at h; exact absurd h (by simp)
    | ok o =>
      rw [hpe] at h
      cases hrec : highConfidence es with
      | error m => rw [hrec] at h; exact absurd h (by simp)
      | ok rest =>
        rw [hrec] at h
        cases o with
        | none =>
          simp only [Except.ok.injEq] at h
          subst h
          rw [List.filterMap_cons]
          cases he : entryConf e with
          | none => exact ih hrec
          | some n => exact (ih hrec).trans (List.sublist_cons_self n _)
        | some s =>
          simp only [Except.ok.injEq] at h
          subst h
          rw [List.filterMap_cons, (processEntry_some hpe).2]
          exact List.Sublist.cons₂ s.conf (ih hrec)

theorem joinProducts_mem {fps : List Product} {hc : List Scored} {r : RecProduct}
    (h : r ∈ joinProducts fps hc) :
    r.product ∈ fps ∧ ∃ s ∈ hc, r.confidence = some s.conf := by
  unfold joinProducts at h
  rcases List.mem_filterMap.mp h with ⟨s, hs, hf⟩
  rcases Option.map_eq_some'.mp hf with ⟨p, hfind, hr⟩
  subst hr
  exact ⟨List.mem_of_find?_eq_some hfind, s, hs, rfl⟩

theorem joinProducts_confs_sublist (fps : List Product) (hc : List Scored) :
    List.Sublist ((joinProducts fps hc).filterMap RecProduct.confidence)
      (hc.map Scored.conf) := by
  induction hc with
  | nil => simp [joinProducts]
  | cons s hc ih =>
    unfold joinProducts at ih ⊢
    rw [List.filterMap_cons]
    cases hfind : fps.find? (fun p => pyEqId s.idv p.id) with
    | none =>
      simp only [Option.map_none']
      exact ih.trans (List.sublist_cons_self s.conf _)
    | some p =>
      simp only [Option.map_some']
      rw [List.filterMap_cons]
      exact List.Sublist.cons₂ s.conf ih

theorem joinProducts_nil_of_nomatch {fps : List Product} {hc : List Scored}
    (h : ∀ s ∈ hc, fps.find? (fun p => pyEqId s.idv p.id) = none) :
    joinProducts fps hc = [] := by
  induction hc with
  | nil => rfl
  | cons s hc ih =>
    unfold joinProducts
    rw [List.filterMap_cons, h s (List.mem_cons_self s hc), Option.map_none']
    exact ih (fun t ht => h t (List.mem_cons_of_mem s ht))

theorem processEntry_ok_of_safe {e : RecEntry} (h : confTypeSafe e = true) :
    ∃ o, processEntry e = .ok o := by
  cases e with
  | nonDict => exact ⟨none, rfl⟩
  | dict idv confv =>
    simp only [confTypeSafe, Bool.or_eq_true] at h
    simp only [processEntry]
    rcases h with h1 | h2
    · cases hid : idv.getD .jnull <;> rw [hid] at h1 <;> simp at h1
      case jstr s =>
        refine ⟨none, ?_⟩
        simp [coerceId, hid, h1]
    · cases hv : confv.getD (.jint 0) <;> rw [hv] at h2 <;> simp at h2
      case jint n =>
        cases hcid : coerceId (idv.getD .jnull) with
        | none => exact ⟨none, rfl⟩
        | some rid =>
          by_cases hb : 5 ≤ n ∧ n ≤ 7
          · exact ⟨some ⟨rid, n⟩, by simp [hv, confCheck, hb]⟩
          · exact ⟨none, by simp [hv, confCheck, hb]⟩
      case jbool b =>
        cases hcid : coerceId (idv.getD .jnull) with
        | none => exact ⟨none, rfl⟩
        | some rid => exact ⟨none, by simp [hv, confCheck]⟩

theorem highConfidence_ok_of_safe {es : List RecEntry}
    (h : ∀ e ∈ es, confTypeSafe e = true) :
    ∃ hc, highConfidence es = .ok hc := by
  induction es with
  | nil => exact ⟨[], rfl⟩
  | cons e es ih =>
    rcases processEntry_ok_of_safe (h e (List.mem_cons_self e es)) with ⟨o, ho⟩
    rcases ih (fun x hx => h x (List.mem_cons_of_mem e hx)) with ⟨rest, hrest⟩
    cases o with
    | none => exact ⟨rest, by simp only [highConfidence]; rw [ho, hrest]⟩
    | some s => exact ⟨s :: rest, by simp only [highConfidence]; rw [ho, hrest]⟩

theorem processEntry_none_of_discarded {e : RecEntry}
    (h : discardedByThreshold e = true) : processEntry e = .ok none := by
  cases e with
  | nonDict => cases h
  | dict idv confv =>
    simp only [discardedByThreshold, Bool.and_eq_true] at h
    obtain ⟨h1, h2⟩ := h
    simp only [processEntry]
    cases hv : confv.getD (.jint 0) <;> rw [hv] at h2 <;> simp at h2
    case jint n =>
    have hnb : ¬ (5 ≤ n ∧ n ≤ 7) := by omega
    cases hid : idv.getD .jnull <;> rw [hid] at h1 <;>
      simp [coerceId, hid, hv, confCheck, hnb]
    case jstr s =>
      rcases Option.isSome_iff_exists.mp (by simpa using h1) with ⟨k, hk⟩
      simp [hk]

theorem highConfidence_nil_of_discarded {es : List RecEntry}
    (h : ∀ e ∈ es, discardedByThreshold e = true) :
    highConfidence es = .ok [] := by
  induction es with
  | nil => rfl
  | cons e es ih =>
    simp only [highConfidence]
    rw [processEntry_none_of_discarded (h e (List.mem_cons_self e es)),
      ih (fun x hx => h x (List.mem_cons_of_mem e hx))]

theorem recs_mem_filtered (catalog : List Product) (req : RecRequest) (oracle : GenReply) :
    ∀ r ∈ (ai_recommend catalog req oracle).1.recs,
      r.product ∈ filteredProducts req catalog := by
  intro r hr
  simp only [ai_recommend] at hr
  by_cases hfe : (filteredProducts req catalog).isEmpty
  · simp [hfe, RecOutcome.recs] at hr
  · simp only [hfe, Bool.false_eq_true, if_false] at hr
    cases oracle with
    | unreachable cause => simp [RecOutcome.recs] at hr
    | httpStatus code => simp [RecOutcome.recs] at hr
    | success parsed =>
      cases parsed with
      | none =>
        simp only [RecOutcome.recs] at hr
        rcases List.mem_map.mp hr with ⟨p, hp, hrp⟩
        subst hrp
        exact List.Sublist.mem hp (List.take_sublist 3 _)
      | some parsed =>
        dsimp only at hr
        cases hhc : highConfidence parsed.recommendations with
        | error m => simp [hhc, RecOutcome.recs] at hr
        | ok hc =>
          rw [hhc] at hr
          by_cases hce : hc.isEmpty
          · simp [hce, RecOutcome.recs] at hr
          · simp only [hce, Bool.false_eq_true, if_false, RecOutcome.recs] at hr
            exact (joinProducts_mem hr).1

theorem isEmpty_eq_false_of_ne_nil {α : Type} {l : List α} (h : l ≠ []) :
    l.isEmpty = false := by
  cases l with
  | nil => exact absurd rfl h
  | cons x xs => rfl

theorem recs_success_some (catalog : List Product) (req : RecRequest) (parsed : ParsedReply) :
    (ai_recommend catalog req (.success (some parsed))).1.recs = [] ∨
    ∃ hc, highConfidence parsed.recommendations = .ok hc ∧
      (ai_recommend catalog req (.success (some parsed))).1.recs =
        joinProducts (filteredProducts req catalog) hc := by
  simp only [ai_recommend]
  by_cases hfe : (filteredProducts req catalog).isEmpty
  · left
    simp [hfe, RecOutcome.recs]
  · simp only [hfe, Bool.false_eq_true, if_false]
    cases hhc : highConfidence parsed.recommendations with
    | error m => left; simp [RecOutcome.recs]
    | ok hc =>
      by_cases hce : hc.isEmpty
      · left
        simp [hce, RecOutcome.recs]
      · right
        refine ⟨hc, rfl, ?_⟩
        simp [hce, RecOutcome.recs]

theorem outcome_ok_of_hc_ok {catalog : List Product} {req : RecRequest}
    {parsed : ParsedReply} {hc : List Scored}
    (hok : highConfidence parsed.recommendations = .ok hc) :
    (ai_recommend catalog req (.success (some parsed))).1.isErr = false ∧
    (ai_recommend catalog req (.success (some parsed))).1.isCrash = false := by
  simp only [ai_recommend]
  by_cases hfe : (filteredProducts req catalog).isEmpty
  · simp [hfe, RecOutcome.isErr, RecOutcome.isCrash]
  · simp only [hfe, Bool.false_eq_true, if_false]
    rw [hok]
    by_cases hce : hc.isEmpty <;> simp [hce, RecOutcome.isErr, RecOutcome.isCrash]

/-- Claim C1, counterexample: on the parse-failure fallback path the
returned entries carry no confidence value at all, and on the
successful-parse path the sequence is exactly the model order, which is
not descending when the reply is not (here confidences 5 then 7). -/
theorem C1_counterexample :
    (¬ ∀ r ∈ (ai_recommend demoCatalog demoReq (.success none)).1.recs,
        ∃ c, r.confidence = some c ∧ 5 ≤ c ∧ c ≤ 7) ∧
    ¬ ((ai_recommend demoCatalog demoReq
          (.success (some unsortedReply))).1.recs.filterMap
        RecProduct.confidence).Pairwise (fun a b => b ≤ a) := by
  constructor
  · intro hAll
    have e : (ai_recommend demoCatalog demoReq (.success none)).1.recs
        = [⟨p1, none⟩, ⟨p2, none⟩, ⟨p3, none⟩] := by decide
    rcases hAll ⟨p1, none⟩ (by rw [e]; exact List.mem_cons_self _ _) with ⟨c, hc, _⟩
    exact Option.noConfusion hc
  · intro hP
    have e2 : (ai_recommend demoCatalog demoReq
        (.success (some unsortedReply))).1.recs.filterMap RecProduct.confidence
        = [5, 7] := by decide
    rw [e2] at hP
    have h75 : (7 : Int) ≤ 5 := (List.pairwise_cons.mp hP).1 7 (List.mem_cons_self _ _)
    omega

/-- Claim C1, amended: every returned entry comes from the post-filter
candidate set on every path; on the successful-parse path every entry
carries a confidence in 5..7 and the sequence preserves the model reply
order, so it is non-increasing whenever the reply confidences are. -/
theorem C1_amended (catalog : List Product) (req : RecRequest) (oracle : GenReply) :
    (∀ r ∈ (ai_recommend catalog req oracle).1.recs,
      r.product ∈ filteredProducts req catalog) ∧
    (∀ parsed, oracle = GenReply.success (some parsed) →
      (∀ r ∈ (ai_recommend catalog req oracle).1.recs,
        ∃ c, r.confidence = some c ∧ 5 ≤ c ∧ c ≤ 7) ∧
      ((parsed.recommendations.filterMap entryConf).Pairwise
          (fun a b => b ≤ a) →
        ((ai_recommend catalog req oracle).1.recs.filterMap
          RecProduct.confidence).Pairwise (fun a b => b ≤ a))) := by
  refine ⟨recs_mem_filtered catalog req oracle, ?_⟩
  rintro parsed rfl
  rcases recs_success_some catalog req parsed with he | ⟨hc, hok, hj⟩
  · rw [he]
    exact ⟨fun r hr => absurd hr (List.not_mem_nil r), fun _ => List.Pairwise.nil⟩
  · rw [hj]
    constructor
    · intro r hr
      rcases (joinProducts_mem hr).2 with ⟨s, hs, hconf⟩
      exact ⟨s.conf, hconf, highConfidence_ok_conf hok s hs⟩
    · intro hsorted
      exact List.Pairwise.sublist
        ((joinProducts_confs_sublist _ hc).trans (highConfidence_confs_sublist hok))
        hsorted

/-- Witness for C1 amended: at the demo catalog with a compliant
(descending) reply, the returned confidences are non-increasing. -/
theorem C1_amended_witness :
    ((ai_recommend demoCatalog demoReq
        (.success (some sortedReply))).1.recs.filterMap
      RecProduct.confidence).Pairwise (fun a b => b ≤ a) :=
  ((C1_amended demoCatalog demoReq
      (.success (some sortedReply))).2 sortedReply rfl).2 (by decide)

/-- Claim C2: for requests with a non-empty allergy set, no returned
recommendation (on any path, including fallback) has a lowercased
name-and-notes blob containing a declared allergy term, lowercased, as a
substring. -/
theorem C2_no_allergen_in_output (catalog : List Product) (req : RecRequest)
    (oracle : GenReply) (hne : req.allergies ≠ []) :
    ∀ r ∈ (ai_recommend catalog req oracle).1.recs, ∀ a ∈ req.allergies,
      pyIn (pyLower a) (allergyBlob r.product) = false := by
  intro r hr a ha
  exact mem_filteredProducts_allergy hne
    (recs_mem_filtered catalog req oracle r hr) a ha

/-- Witness for C2: the milk-allergy request on the fallback path returns
the espresso, whose blob does not contain the allergy term. -/
theorem C2_witness :
    pyIn (pyLower "Milk") (allergyBlob p1) = false := by
  have h := C2_no_allergen_in_output demoCatalog milkReq (.success none) (by decide)
  have e : (ai_recommend demoCatalog milkReq (.success none)).1.recs
      = [⟨p1, none⟩, ⟨p3, none⟩] := by decide
  exact h ⟨p1, none⟩ (by rw [e]; exact List.mem_cons_self _ _)
    "Milk" (List.mem_cons_self _ _)

/-- Claim C3: for requests with a non-empty disliked-set, no returned
recommendation's identifier (on any path, including fallback) is a member
of the disliked-set. -/
theorem C3_no_disliked_in_output (catalog : List Product) (req : RecRequest)
    (oracle : GenReply) (hne : req.disliked_ids ≠ []) :
    ∀ r ∈ (ai_recommend catalog req oracle).1.recs,
      r.product.id ∉ req.disliked_ids := by
  intro r hr hmem
  have h := mem_filteredProducts_dislike (recs_mem_filtered catalog req oracle r hr)
  rw [List.contains_eq_any_beq] at h
  simp only [List.any_eq_false, beq_iff_eq] at h
  exact h r.product.id hmem rfl

/-- Witness for C3: with product 2 disliked, the fallback result contains
the espresso, whose id 1 is outside the disliked-set. -/
theorem C3_witness : p1.id ∉ dislikeReq.disliked_ids := by
  have h := C3_no_disliked_in_output demoCatalog dislikeReq (.success none) (by decide)
  have e : (ai_recommend demoCatalog dislikeReq (.success none)).1.recs
      = [⟨p1, none⟩, ⟨p3, none⟩] := by decide
  exact h ⟨p1, none⟩ (by rw [e]; exact List.mem_cons_self _ _)

/-- Claim C4: an empty post-filter candidate set short-circuits with zero
recommendations, the fixed no-drinks-match rationale, and no call to the
generation service (the call counter stays 0). -/
theorem C4_empty_filter_short_circuit (catalog : List Product) (req : RecRequest)
    (oracle : GenReply) (h : filteredProducts req catalog = []) :
    ai_recommend catalog req oracle =
      (.ok { user_id := req.user_id, query := req.query, recommendations := []
             reasoning := filterEmptyReasoning, ai_model := some aiModelTag
             note := none }, 0) := by
  simp only [ai_recommend, h]
  rfl

/-- Witness for C4 at a request disliking the entire catalog. -/
theorem C4_witness :
    ai_recommend demoCatalog emptyReq (.success none) =
      (.ok { user_id := emptyReq.user_id, query := emptyReq.query
             recommendations := []
             reasoning := filterEmptyReasoning, ai_model := some aiModelTag
             note := none }, 0) :=
  C4_empty_filter_short_circuit demoCatalog emptyReq (.success none) (by decide)

/-- Claim C5, counterexample: a parseable reply whose single entry carries
a string-typed confidence makes the comparison raise TypeError, which no
except clause of the handler catches: the request crashes instead of being
silently filtered. -/
theorem C5_counterexample :
    (ai_recommend demoCatalog demoReq (.success (some badConfReply))).1 =
      .crash "TypeError: str and int are not orderable" ∧
    (ai_recommend demoCatalog demoReq
      (.success (some badConfReply))).1.isCrash = true := by
  exact ⟨by decide, by decide⟩

/-- Claim C5, amended: for every parseable reply whose entries cannot make
the confidence comparison raise (each entry is a non-record, or is skipped
at id coercion, or has an absent, integer or boolean confidence), the
endpoint silently filters the invalid entries: it returns a success
payload, never an error or a crash, and every surviving entry has a
confidence in 5..7 and comes from the post-filter candidate set. -/
theorem C5_amended (catalog : List Product) (req : RecRequest) (parsed : ParsedReply)
    (h : ∀ e ∈ parsed.recommendations, confTypeSafe e = true) :
    (ai_recommend catalog req (.success (some parsed))).1.isErr = false ∧
    (ai_recommend catalog req (.success (some parsed))).1.isCrash = false ∧
    ∀ r ∈ (ai_recommend catalog req (.success (some parsed))).1.recs,
      (∃ c, r.confidence = some c ∧ 5 ≤ c ∧ c ≤ 7) ∧
      r.product ∈ filteredProducts req catalog := by
  rcases highConfidence_ok_of_safe h with ⟨hc, hok⟩
  refine ⟨(outcome_ok_of_hc_ok hok).1, (outcome_ok_of_hc_ok hok).2, ?_⟩
  intro r hr
  refine ⟨?_, recs_mem_filtered catalog req _ r hr⟩
  rcases recs_success_some catalog req parsed with he | ⟨hc2, hok2, hj⟩
  · rw [he] at hr
    exact absurd hr (List.not_mem_nil r)
  · rw [hj] at hr
    rcases (joinProducts_mem hr).2 with ⟨s, hs, hconf⟩
    exact ⟨s.conf, hconf, highConfidence_ok_conf hok2 s hs⟩

/-- Witness for C5 amended: a reply mixing a non-record entry, an
uncoercible string id, and an out-of-range confidence is handled without
error or crash. -/
theorem C5_amended_witness :
    (ai_recommend demoCatalog demoReq (.success (some mixedReply))).1.isErr = false ∧
    (ai_recommend demoCatalog demoReq (.success (some mixedReply))).1.isCrash = false := by
  have h := C5_amended demoCatalog demoReq mixedReply (by decide)
  exact ⟨h.1, h.2.1⟩

/-- Claim C6: when the generation service succeeds but its text payload
fails JSON parsing, the result is exactly the fallback: the first three
post-filter candidates in filter-stage order (with no confidence field),
the fixed fallback rationale, and the parsing-failure note, after one
service call. -/
theorem C6_parse_failure_fallback (catalog : List Product) (req : RecRequest)
    (h : filteredProducts req catalog ≠ []) :
    ai_recommend catalog req (.success none) =
      (.ok { user_id := req.user_id, query := req.query
             recommendations := ((filteredProducts req catalog).take 3).map
               (fun p => ⟨p, none⟩)
             reasoning := fallbackReasoning, ai_model := none
             note := some fallbackNote }, 1) := by
  simp only [ai_recommend, isEmpty_eq_false_of_ne_nil h, Bool.false_eq_true, if_false]

/-- Witness for C6 at the unrestricted demo request. -/
theorem C6_witness :
    ai_recommend demoCatalog demoReq (.success none) =
      (.ok { user_id := demoReq.user_id, query := demoReq.query
             recommendations := ((filteredProducts demoReq demoCatalog).take 3).map
               (fun p => ⟨p, none⟩)
             reasoning := fallbackReasoning, ai_model := none
             note := some fallbackNote }, 1) :=
  C6_parse_failure_fallback demoCatalog demoReq (by decide)

/-- Claim C7: a parsed reply whose candidate list is empty, or whose
entries all reach the confidence threshold and fail it, yields zero
recommendations with the fixed no-strong-matches rationale, distinct from
the filter-empty rationale. -/
theorem C7_no_strong_matches (catalog : List Product) (req : RecRequest)
    (parsed : ParsedReply)
    (hne : filteredProducts req catalog ≠ [])
    (h : parsed.recommendations = [] ∨
      ∀ e ∈ parsed.recommendations, discardedByThreshold e = true) :
    (ai_recommend catalog req (.success (some parsed))).1 =
      .ok { user_id := req.user_id, query := req.query, recommendations := []
            reasoning := noStrongReasoning, ai_model := some aiModelTag
            note := none } ∧
    noStrongReasoning ≠ filterEmptyReasoning := by
  have hhc : highConfidence parsed.recommendations = .ok [] := by
    rcases h with h | h
    · rw [h]; rfl
    · exact highConfidence_nil_of_discarded h
  refine ⟨?_, by decide⟩
  simp only [ai_recommend, isEmpty_eq_false_of_ne_nil hne, Bool.false_eq_true, if_false]
  rw [hhc]
  rfl

/-- Witness for C7 at a reply whose single entry has confidence 3. -/
theorem C7_witness :
    (ai_recommend demoCatalog demoReq (.success (some weakReply))).1 =
      .ok { user_id := demoReq.user_id, query := demoReq.query
            recommendations := []
            reasoning := noStrongReasoning, ai_model := some aiModelTag
            note := none } :=
  (C7_no_strong_matches demoCatalog demoReq weakReply (by decide)
    (Or.inr (by decide))).1

/-- Claim C8: a non-success upstream status yields a 500 error naming the
status; a connection or timeout failure yields a 500 error with the fixed
human-readable hint and the underlying cause; the configured wait bound is
90 seconds; and each failure path issues exactly one call (the counter is
1, with no retry). -/
theorem C8_failure_paths (catalog : List Product) (req : RecRequest)
    (h : filteredProducts req catalog ≠ []) :
    (∀ code, ai_recommend catalog req (.httpStatus code) =
      (.err 500 "Ollama API error" (some code) none, 1)) ∧
    (∀ cause, ai_recommend catalog req (.unreachable cause) =
      (.err 500 "Cannot connect to Ollama. Make sure Ollama is running."
        none (some cause), 1)) ∧
    ollamaCallConfig.timeoutSeconds = 90 := by
  refine ⟨fun code => ?_, fun cause => ?_, rfl⟩ <;>
    simp only [ai_recommend, isEmpty_eq_false_of_ne_nil h, Bool.false_eq_true, if_false]

/-- Witness for C8 with upstream status 404. -/
theorem C8_witness :
    ai_recommend demoCatalog demoReq (.httpStatus 404) =
      (.err 500 "Ollama API error" (some 404) none, 1) :=
  (C8_failure_paths demoCatalog demoReq (by decide)).1 404

/-- Claim C9: when the parsed reply lists its (integer-confidence) entries
in non-increasing confidence order, the returned confidences are a
subsequence of the reply confidences (no independent re-sort, model order
preserved through the threshold filter and the identifier join) and are
therefore non-increasing. -/
theorem C9_order_preserved (catalog : List Product) (req : RecRequest)
    (parsed : ParsedReply)
    (hsorted : (parsed.recommendations.filterMap entryConf).Pairwise
      (fun a b => b ≤ a)) :
    List.Sublist
      ((ai_recommend catalog req (.success (some parsed))).1.recs.filterMap
        RecProduct.confidence)
      (parsed.recommendations.filterMap entryConf) ∧
    ((ai_recommend catalog req (.success (some parsed))).1.recs.filterMap
      RecProduct.confidence).Pairwise (fun a b => b ≤ a) := by
  rcases recs_success_some catalog req parsed with he | ⟨hc, hok, hj⟩
  · rw [he]
    exact ⟨List.nil_sublist _, List.Pairwise.nil⟩
  · rw [hj]
    have hsub := (joinProducts_confs_sublist (filteredProducts req catalog) hc).trans
      (highConfidence_confs_sublist hok)
    exact ⟨hsub, List.Pairwise.sublist hsub hsorted⟩

/-- Witness for C9: with the compliant demo reply, the output confidences
are a subsequence of the reply confidences. -/
theorem C9_witness :
    List.Sublist
      ((ai_recommend demoCatalog demoReq
          (.success (some sortedReply))).1.recs.filterMap RecProduct.confidence)
      (sortedReply.recommendations.filterMap entryConf) :=
  (C9_order_preserved demoCatalog demoReq sortedReply (by decide)).1

/-- Claim C10: a parsed reply with at least one surviving
threshold-passing entry, none of whose identifiers matches a post-filter
product, returns an empty recommendations list together with the
model-supplied reasoning string (not either fixed rationale). -/
theorem C10_unmatched_ids_model_reasoning (catalog : List Product)
    (req : RecRequest) (parsed : ParsedReply) (hc : List Scored) (rs : String)
    (hne : filteredProducts req catalog ≠ [])
    (hok : highConfidence parsed.recommendations = .ok hc)
    (hcne : hc ≠ [])
    (hrs : parsed.reasoning = some rs)
    (hnomatch : ∀ s ∈ hc,
      (filteredProducts req catalog).find? (fun p => pyEqId s.idv p.id) = none) :
    (ai_recommend catalog req (.success (some parsed))).1 =
      .ok { user_id := req.user_id, query := req.query, recommendations := []
            reasoning := rs, ai_model := some aiModelTag, note := none } := by
  simp only [ai_recommend, isEmpty_eq_false_of_ne_nil hne, Bool.false_eq_true, if_false]
  rw [hok]
  simp only [isEmpty_eq_false_of_ne_nil hcne, Bool.false_eq_true, if_false]
  rw [joinProducts_nil_of_nomatch hnomatch, hrs]
  rfl

/-- Witness for C10 at a reply naming the hallucinated id 99. -/
theorem C10_witness :
    (ai_recommend demoCatalog demoReq (.success (some hallucReply))).1 =
      .ok { user_id := demoReq.user_id, query := demoReq.query
            recommendations := []
            reasoning := "model says", ai_model := some aiModelTag
            note := none } :=
  C10_unmatched_ids_model_reasoning demoCatalog demoReq hallucReply
    [⟨.jint 99, 6⟩] "model says" (by decide) rfl (by decide) rfl (by decide)

end Satisfy
